import Mathlib

/-!
Shallow embedding of the snsim population/parameter generator
(src/snsim/generators.py, src/snsim/utils.py, src/snsim/salt_utils.py,
src/snsim.py) together with theorems settling the frozen claims about it.

Numeric modelling conventions:
* Python floats are modelled by exact numbers: `Rat` where the claims are
  about exact arithmetic identities, `Real` where the source uses
  transcendental functions (log10, exp, sin, cos, arcsin, pi, real powers).
* numpy `default_rng` is an external collaborator.  It is modelled as a
  deterministic stream of raw 64-bit words produced by a concrete mixing
  function (an LCG standing in for PCG64): what the claims use is only that
  the generator is a pure function of its seed, that `integers(low, high)`
  returns values in the half-open range `[low, high)` and that
  `normal(loc, scale)` is `loc + scale * xi` for a deterministic decode `xi`
  of the stream.
* Fallible code paths are `Except String`; the unbounded footprint
  rejection loop is modelled with explicit fuel returning `Option`.
-/

/-! ## Model of the numpy random generator (external collaborator) -/

/-- One word of the modelled 64-bit state space. -/
def UINT64 : Nat := 18446744073709551616

/-- Deterministic state-mixing function standing in for the PCG64 step
(numpy internals; an LCG with the classic MMIX multipliers). -/
def rngMix (s : Nat) : Nat :=
  (6364136223846793005 * s + 1442695040888963407) % UINT64

/-- Raw word number `i` of the stream seeded by `seed`. -/
def rngRaw (seed : Nat) : Nat → Nat
  | 0 => rngMix (seed % UINT64)
  | i + 1 => rngMix (rngRaw seed i)

/-- Model of a `numpy.random.Generator`: the seed it was constructed from
and the number of raw words already consumed. -/
structure NpGen where
  seed : Nat
  pos : Nat
deriving DecidableEq

/-- Model of `np.random.default_rng(seed)` for an integer seed.  When the
Python code passes an existing `Generator` to `default_rng`, numpy returns
it unaltered; call sites model that by threading the `NpGen` value. -/
def npDefaultRng (seed : Nat) : NpGen := ⟨seed, 0⟩

/-- Consume one raw word. -/
def npRaw (g : NpGen) : Nat × NpGen :=
  (rngRaw g.seed g.pos, ⟨g.seed, g.pos + 1⟩)

/-- Consume `n` raw words. -/
def npRawList (g : NpGen) : Nat → List Nat × NpGen
  | 0 => ([], g)
  | n + 1 =>
    ((npRaw g).1 :: (npRawList (npRaw g).2 n).1, (npRawList (npRaw g).2 n).2)

/-- Model of `Generator.integers(low, high)` (one draw): a value in
`[low, high)` obtained deterministically from the stream. -/
def npIntegersOne (g : NpGen) (low high : Nat) : Nat × NpGen :=
  (low + (npRaw g).1 % (high - low), (npRaw g).2)

/-- Model of `Generator.integers(low, high, size=n)`. -/
def npIntegersList (g : NpGen) (low high n : Nat) : List Nat × NpGen :=
  ((npRawList g n).1.map (fun v => low + v % (high - low)), (npRawList g n).2)

/-- Decode a raw word to a uniform variate in `[0, 1)` (model of
`Generator.random`). -/
def rawToUnit (v : Nat) : Rat := (v % UINT64 : Nat) / (UINT64 : Rat)

/-- Model of `Generator.random()` (one draw). -/
def npRandomOne (g : NpGen) : Rat × NpGen :=
  (rawToUnit (npRaw g).1, (npRaw g).2)

/-- Model of `Generator.random(size=n)`. -/
def npRandomList (g : NpGen) (n : Nat) : List Rat × NpGen :=
  ((npRawList g n).1.map rawToUnit, (npRawList g n).2)

/-- Lowercase one ASCII character (model of the Python `str.lower`
behaviour on the ASCII names appearing in the configuration). -/
def lowerChar (c : Char) : Char :=
  if 65 ≤ c.toNat ∧ c.toNat ≤ 90 then Char.ofNat (c.toNat + 32) else c

/-- Model of the Python `str.lower()` on ASCII strings. -/
def pyLower (s : String) : String := String.mk (s.data.map lowerChar)

/-! ## C3 — observed-redshift composition (src/snsim/utils.py lines 310-314,
src/snsim.py lines 114-120) -/

/-- Speed of light in km/s as used by `constants.C_LIGHT_KMS`
(`astropy.constants.c` converted to km/s, exactly 299792.458). -/
def C_LIGHT_KMS : Rat := 299792458 / 1000

/-- Embedding of `utils.zobs_MinT_MaxT`: observed redshift and the model
time window, from the fields of `par` and the model time range. -/
def zobs_MinT_MaxT (zcos z2cmb vpec sim_t0 mint maxt : Rat) :
    Rat × Rat × Rat :=
  let zobs := (1 + zcos) * (1 + z2cmb) * (1 + vpec / C_LIGHT_KMS) - 1
  (zobs, sim_t0 + mint * (1 + zobs), sim_t0 + maxt * (1 + zobs))

/-- Embedding of the observed redshift composed in
`sn_sim.gen_param_array` (src/snsim.py line 120), with
`zpec = vpec / c_light_kms` from `gen_z_pec` (line 178). -/
def snsim_zobs (zcos vpec z2cmb : Rat) : Rat :=
  let zpec := vpec / C_LIGHT_KMS
  (1 + zcos) * (1 + zpec) * (1 + z2cmb) - 1

/-- C3: the observed redshift is composed multiplicatively as
`1+z_obs = (1+z_cos)(1+z_pec)(1+z_cmb_correction)` with
`z_pec = v_pec / c_light`, in both `utils.zobs_MinT_MaxT` and
`sn_sim.gen_param_array`; at `zcos = 0.1`, `zpec = 0.001`,
`z_cmb_correction = -0.0002` the result is `1.1 * 1.001 * 0.9998 - 1`,
which differs from the additive sum. -/
theorem zobs_multiplicative :
    (∀ zcos z2cmb vpec t a b,
      (zobs_MinT_MaxT zcos z2cmb vpec t a b).1 =
        (1 + zcos) * (1 + vpec / C_LIGHT_KMS) * (1 + z2cmb) - 1) ∧
    (∀ zcos z2cmb vpec,
      snsim_zobs zcos vpec z2cmb =
        (1 + zcos) * (1 + vpec / C_LIGHT_KMS) * (1 + z2cmb) - 1) ∧
    snsim_zobs (1/10) (C_LIGHT_KMS * (1/1000)) (-(2/10000)) =
      (11/10) * (1001/1000) * (9998/10000) - 1 ∧
    snsim_zobs (1/10) (C_LIGHT_KMS * (1/1000)) (-(2/10000)) ≠
      1/10 + 1/1000 + -(2/10000) := by
  refine ⟨?_, ?_, by norm_num [snsim_zobs, C_LIGHT_KMS],
    by norm_num [snsim_zobs, C_LIGHT_KMS]⟩
  · intro zcos z2cmb vpec t a b
    simp only [zobs_MinT_MaxT]
    ring
  · intro zcos z2cmb vpec
    simp only [snsim_zobs]

/-! ## C10 — time_range setter (src/snsim/generators.py lines 547-558) -/

/-- Embedding of the `BaseGen.time_range` setter: an invalid range
(`tmin > tmax`) only prints a message and leaves the stored value
unchanged; a valid range is stored. -/
def set_time_range (cur : Option (Rat × Rat)) (tr : Rat × Rat) :
    Option (Rat × Rat) :=
  if tr.1 > tr.2 then cur else some tr

/-- C10: assigning `(tmin, tmax)` with `tmin > tmax` to the time_range
property raises no exception and leaves the stored range unchanged, while
`tmin ≤ tmax` stores the pair. -/
theorem set_time_range_spec (cur : Option (Rat × Rat)) (tr : Rat × Rat) :
    (tr.1 > tr.2 → set_time_range cur tr = cur) ∧
    (tr.1 ≤ tr.2 → set_time_range cur tr = some tr) := by
  constructor
  · intro h
    simp [set_time_range, h]
  · intro h
    simp [set_time_range, not_lt.mpr h]

/-- Witness for C10 at concrete inputs on both branches. -/
theorem set_time_range_spec_witness :
    set_time_range (some (5, 6)) (2, 1) = some (5, 6) ∧
    set_time_range none (0, 1) = some (0, 1) :=
  ⟨(set_time_range_spec (some (5, 6)) (2, 1)).1 (by decide),
   (set_time_range_spec none (0, 1)).2 (by decide)⟩

/-! ## C6 — rate default and model-name check
(src/snsim/generators.py lines 184-200 and 629-651) -/

/-- Configured value of the `rate` key: a number, a string that parses as a
float (`float(rate)` succeeds), or a non-numeric string (`float(rate)`
raises ValueError, caught, leaving `rate = None`). -/
inductive RateConfig
  | num (v : Rat)
  | strNum (v : Rat)
  | strName (s : String)

/-- Embedding of `BaseGen._init_rate`: when the `rate` key is absent the
rate defaults to `3e-5`; a numeric string is parsed; a non-numeric string
leaves `None`; `rate_pw` defaults to `0`.  There is no failure path. -/
def init_rate (rate : Option RateConfig) (rate_pw : Option Rat) :
    Option Rat × Rat :=
  let r : Option Rat :=
    match rate with
    | none => some (3 / 100000)
    | some (.num v) => some v
    | some (.strNum v) => some v
    | some (.strName _) => none
  let pw : Rat :=
    match rate_pw with
    | none => 0
    | some p => p
  (r, pw)

/-- The `_available_models` list of `SNIaGen`. -/
def SNIaGen_available_models : List String := ["salt2", "salt3"]

/-- Embedding of `SNIaGen._init_sim_model`: raises
`ValueError('Model not available')` when the lowercased model name is not
in the available list; otherwise hands off to the external sncosmo model
constructor (abstracted as returning the name). -/
def init_sim_model (model_name : String) : Except String String :=
  if pyLower model_name ∈ SNIaGen_available_models then
    Except.ok model_name
  else
    Except.error "Model not available"

/-- C6 counterexample: with the `rate` key absent, `BaseGen._init_rate`
completes and returns the default rate `3e-5` (with `rate_pw = 0`) instead
of failing fatally, refuting the claim that an absent rate key makes
initialization raise. -/
theorem init_rate_absent_uses_default :
    init_rate none none = (some (3 / 100000), 0) := rfl

/-- C6 amended: an absent `rate` key makes `_init_rate` proceed with the
default value `3e-5` (and `rate_pw = 0`) without raising, while a model
name whose lowercasing is not among the supported models makes
`SNIaGen._init_sim_model` raise `ValueError('Model not available')`. -/
theorem init_rate_default_and_model_check :
    init_rate none none = (some (3 / 100000), 0) ∧
    ∀ name : String,
      pyLower name ∉ SNIaGen_available_models →
      init_sim_model name = Except.error "Model not available" := by
  refine ⟨rfl, ?_⟩
  intro name h
  simp [init_sim_model, h]

/-- Witness for the amended C6 at the unsupported model name "mlcs2k2". -/
theorem init_rate_default_and_model_check_witness :
    pyLower "mlcs2k2" ∉ SNIaGen_available_models ∧
    init_sim_model "mlcs2k2" = Except.error "Model not available" :=
  ⟨by decide, init_rate_default_and_model_check.2 "mlcs2k2" (by decide)⟩

/-! ## C2 — redshift CDF construction (src/snsim/utils.py lines 105-123,
invoked from BaseGen.compute_zcdf) -/

/-- Running prefix sums starting from an accumulator:
`cumsumFrom acc [a, b, c] = [acc+a, acc+a+b, acc+a+b+c]`. -/
def cumsumFrom {R : Type} [Field R] (acc : R) : List R → List R
  | [] => []
  | x :: xs => (acc + x) :: cumsumFrom (acc + x) xs

/-- Model of `np.cumsum`. -/
def np_cumsum {R : Type} [Field R] (l : List R) : List R := cumsumFrom 0 l

/-- Embedding of `utils.compute_z_cdf`:
`dist = np.append(0, np.cumsum(shell_time_rate))`, `norm = dist[-1]`,
returning `[z_shell, dist / norm]`. -/
def compute_z_cdf {R : Type} [Field R] (z_shell shell_time_rate : List R) :
    List R × List R :=
  let dist := 0 :: np_cumsum shell_time_rate
  let norm := dist.getLastD 0
  (z_shell, dist.map (fun d => d / norm))

theorem getLastD_cumsumFrom {R : Type} [Field R] :
    ∀ (l : List R) (acc : R), (cumsumFrom acc l).getLastD acc = acc + l.sum
  | [], acc => by simp [cumsumFrom]
  | x :: xs, acc => by
    rw [cumsumFrom, List.getLastD_cons, getLastD_cumsumFrom xs (acc + x)]
    rw [List.sum_cons, add_assoc]

theorem chain'_cumsumFrom {R : Type} [LinearOrderedField R] :
    ∀ (l : List R) (acc : R), (∀ x ∈ l, 0 ≤ x) →
      List.Chain' (· ≤ ·) (acc :: cumsumFrom acc l)
  | [], acc, _ => by simp [cumsumFrom]
  | x :: xs, acc, h => by
    rw [cumsumFrom, List.chain'_cons]
    exact ⟨le_add_of_nonneg_right (h x (List.mem_cons_self x xs)),
      chain'_cumsumFrom xs (acc + x) (fun y hy => h y (List.mem_cons_of_mem x hy))⟩

theorem getLastD_map_cons {R : Type} [Field R] (f : R → R) :
    ∀ (l : List R) (a x y : R), ((a :: l).map f).getLastD x = f ((a :: l).getLastD y)
  | [], a, x, y => by simp
  | b :: l, a, x, y => by
    rw [List.map_cons, List.getLastD_cons, List.getLastD_cons]
    exact getLastD_map_cons f l b (f a) a

/-- C2: for every redshift grid and every elementwise non-negative shell
time-rate vector with positive total, the probability column built by
`compute_z_cdf` is monotonically non-decreasing, starts at exactly `0` and
ends at exactly `1`. -/
theorem compute_z_cdf_prob_valid (z_shell rates : List Rat)
    (hnn : ∀ r ∈ rates, 0 ≤ r) (hpos : 0 < rates.sum) :
    List.Chain' (· ≤ ·) (compute_z_cdf z_shell rates).2 ∧
    (compute_z_cdf z_shell rates).2.head? = some 0 ∧
    (compute_z_cdf z_shell rates).2.getLastD 0 = 1 := by
  have hnorm : ((0 : Rat) :: np_cumsum rates).getLastD 0 = rates.sum := by
    rw [List.getLastD_cons, np_cumsum, getLastD_cumsumFrom, zero_add]
  refine ⟨?_, ?_, ?_⟩
  · have hchain : List.Chain' (· ≤ ·) ((0 : Rat) :: np_cumsum rates) :=
      chain'_cumsumFrom rates 0 hnn
    simp only [compute_z_cdf]
    rw [List.chain'_map]
    refine hchain.imp ?_
    intro a b hab
    rw [hnorm]
    exact (div_le_div_iff_of_pos_right hpos).mpr hab
  · simp [compute_z_cdf, zero_div]
  · simp only [compute_z_cdf]
    rw [getLastD_map_cons _ _ 0 0 0, hnorm, div_self (ne_of_gt hpos)]

/-- Witness for C2 on the grid `[0, 1/10]` with rates `[1, 2]`. -/
theorem compute_z_cdf_prob_valid_witness :
    (∀ r ∈ ([1, 2] : List Rat), 0 ≤ r) ∧ (0 : Rat) < ([1, 2] : List Rat).sum ∧
    (List.Chain' (· ≤ ·) (compute_z_cdf ([0, 1/10] : List Rat) [1, 2]).2 ∧
     (compute_z_cdf ([0, 1/10] : List Rat) [1, 2]).2.head? = some 0 ∧
     (compute_z_cdf ([0, 1/10] : List Rat) [1, 2]).2.getLastD 0 = 1) :=
  ⟨by norm_num, by norm_num,
   compute_z_cdf_prob_valid [0, 1/10] [1, 2] (by norm_num) (by norm_num)⟩

/-! ## C7 — sub-seed derivation
(src/snsim/generators.py lines 102-113 and 355-363, src/snsim.py lines 79-94) -/

/-- The `update_seeds = rand_gen.integers(1000, 1e6, size=3)` step of
`BaseGen.__call__`. -/
def call_update_seeds (g : NpGen) : List Nat :=
  (npIntegersList g 1000 1000000 3).1

/-- The `opt_seeds = rand_gen.integers(1000, 1e6, size=2)` step of
`BaseGen.gen_astrobj_par`. -/
def astrobj_opt_seeds (g : NpGen) : List Nat :=
  (npIntegersList g 1000 1000000 2).1

/-- The `hseed = rand_gen.integers(1000, 1e6)` step of
`BaseGen.gen_astrobj_par` (host branch). -/
def astrobj_host_seed (g : NpGen) : Nat :=
  (npIntegersOne g 1000 1000000).1

/-- The `np.random.default_rng(self.randseed).integers(low=1000, high=10000,
size=7)` step of `sn_sim.gen_param_array` (src/snsim.py line 86). -/
def gen_param_randseeds (root : Nat) : List Nat :=
  (npIntegersList (npDefaultRng root) 1000 10000 7).1

theorem mem_npIntegersList_range {g : NpGen} {low high n : Nat}
    (hlh : low < high) :
    ∀ s ∈ (npIntegersList g low high n).1, low ≤ s ∧ s < high := by
  intro s hs
  simp only [npIntegersList, List.mem_map] at hs
  obtain ⟨v, _, rfl⟩ := hs
  have hmod : v % (high - low) < high - low := Nat.mod_lt v (by omega)
  omega

/-- C7: every derived sub-seed is an integer in `[1000, 10^6)` (the
`sn_sim.gen_param_array` seeds lie in the subrange `[1000, 10^4)`), and the
sub-seed sequence is a deterministic function of the root seed alone. -/
theorem sub_seed_derivation_spec :
    (∀ g : NpGen, ∀ s ∈ call_update_seeds g, 1000 ≤ s ∧ s < 1000000) ∧
    (∀ g : NpGen, ∀ s ∈ astrobj_opt_seeds g, 1000 ≤ s ∧ s < 1000000) ∧
    (∀ g : NpGen, 1000 ≤ astrobj_host_seed g ∧ astrobj_host_seed g < 1000000) ∧
    (∀ root : Nat, ∀ s ∈ gen_param_randseeds root, 1000 ≤ s ∧ s < 1000000) ∧
    (∀ r1 r2 : Nat, r1 = r2 →
      gen_param_randseeds r1 = gen_param_randseeds r2 ∧
      call_update_seeds (npDefaultRng r1) = call_update_seeds (npDefaultRng r2)) := by
  refine ⟨?_, ?_, ?_, ?_, ?_⟩
  · intro g s hs
    exact mem_npIntegersList_range (by omega) s hs
  · intro g s hs
    exact mem_npIntegersList_range (by omega) s hs
  · intro g
    simp only [astrobj_host_seed, npIntegersOne]
    have hmod : (npRaw g).1 % (1000000 - 1000) < 1000000 - 1000 :=
      Nat.mod_lt _ (by omega)
    omega
  · intro root s hs
    have h := @mem_npIntegersList_range (npDefaultRng root) 1000 10000 7
      (by omega) s hs
    omega
  · intro r1 r2 h
    subst h
    exact ⟨rfl, rfl⟩

/-- Witness for C7 at root seed 42: the first derived sub-seed of
`sn_sim.gen_param_array` is in range. -/
theorem sub_seed_derivation_spec_witness :
    ((gen_param_randseeds 42).headD 0 ∈ gen_param_randseeds 42) ∧
    (42 : Nat) = 42 ∧
    (1000 ≤ (gen_param_randseeds 42).headD 0 ∧
      (gen_param_randseeds 42).headD 0 < 1000000) ∧
    gen_param_randseeds 42 = gen_param_randseeds 42 :=
  ⟨by decide, rfl,
   sub_seed_derivation_spec.2.2.2.1 42 _ (by decide),
   (sub_seed_derivation_spec.2.2.2.2 42 42 rfl).1⟩

/-! ## C8 — JLA absolute-magnitude rescaling (src/snsim/utils.py lines 57-81,
src/snsim/generators.py lines 621-627) -/

/-- Embedding of `utils.scale_M0_jla`: rescale the JLA absolute magnitude
`M0_jla = -19.05` (calibrated at `H0_jla = 70`) to the adopted Hubble
constant, `M0_jla - 5 * log10(1 + dH0)` with `dH0 = (H0_jla - H0) / H0`. -/
noncomputable def scale_M0_jla (H0 : Real) : Real :=
  let H0_jla : Real := 70
  let M0_jla : Real := -19.05
  let dH0 := (H0_jla - H0) / H0
  M0_jla - 5 * Real.logb 10 (1 + dH0)

/-- Configured value of the `M0` key of `SNIaGen`: a literal number or a
named calibration recipe. -/
inductive M0Config
  | lit (v : Real)
  | named (s : String)

/-- Embedding of `SNIaGen._init_M0`: a numeric literal is returned as is;
the named recipe `'jla'` is rescaled by the adopted Hubble constant; any
other string falls through (Python returns None). -/
noncomputable def init_M0 (m : M0Config) (H0 : Real) : Option Real :=
  match m with
  | .lit v => some v
  | .named s => if pyLower s = "jla" then some (scale_M0_jla H0) else none

/-- C8: the named-recipe rescaling returns
`M0_ref - 5 * log10(1 + (H0_ref - H0_new)/H0_new)` with `H0_ref = 70` and
`M0_ref = -19.05`; `H0_new = 70` returns exactly `-19.05`, and
`H0_new = 65` is offset from `-19.05` by `-5 * log10(1 + (70-65)/65)`;
`_init_M0` applies the rescaling for the `'jla'` recipe. -/
theorem scale_M0_jla_spec :
    (∀ H0 : Real,
      scale_M0_jla H0 = -19.05 - 5 * Real.logb 10 (1 + (70 - H0) / H0)) ∧
    scale_M0_jla 70 = -19.05 ∧
    scale_M0_jla 65 - (-19.05) = -(5 * Real.logb 10 (1 + (70 - 65) / 65)) ∧
    (∀ H0 : Real, init_M0 (M0Config.named "jla") H0 = some (scale_M0_jla H0)) := by
  have hjla : pyLower "jla" = "jla" := by decide
  refine ⟨fun H0 => rfl, ?_, ?_, fun H0 => by simp [init_M0, hjla]⟩
  · show (-19.05 : Real) - 5 * Real.logb 10 (1 + (70 - 70) / 70) = -19.05
    norm_num
  · show (-19.05 : Real) - 5 * Real.logb 10 (1 + (70 - 65) / 65) - (-19.05) =
      -(5 * Real.logb 10 (1 + (70 - 65) / 65))
    ring

/-! ## C4 — redshift range validation in BaseGen.compute_zcdf
(src/snsim/generators.py lines 403-432) -/

/-- Adjacent pairs of a list: `adjPairs [a, b, c] = [(a, b), (b, c)]`,
modelling the `l[1:]` against `l[:-1]` numpy idiom. -/
def adjPairs {R : Type} : List R → List (R × R)
  | x :: y :: xs => (x, y) :: adjPairs (y :: xs)
  | _ => []

/-- Elementwise combination of three lists of equal length. -/
def zip3With {A B C D : Type} (f : A → B → C → D) :
    List A → List B → List C → List D
  | a :: as, b :: bs, c :: cs => f a b c :: zip3With f as bs cs
  | _, _, _ => []

/-- Model of `np.linspace(a, b, num)`: `num` evenly spaced points from `a`
to `b` inclusive (empty for `num = 0`, `[a]` for `num = 1`). -/
def np_linspace {R : Type} [Field R] (a b : R) : Nat → List R
  | 0 => []
  | 1 => [a]
  | n + 2 => (List.range (n + 2)).map (fun i => a + (b - a) * i / (n + 1))

/-- Model of the Python `int()` conversion applied to a float: truncation
toward zero. -/
noncomputable def pyInt (q : Real) : Int := if 0 ≤ q then ⌊q⌋ else ⌈q⌉

/-- Embedding of `BaseGen.rate`: `rate_z0 * (1 + z) ** rate_pw`. -/
noncomputable def BaseGen_rate (rate_z0 rate_pw z : Real) : Real :=
  rate_z0 * (1 + z) ^ rate_pw

/-- Embedding of `BaseGen.compute_zcdf`.  The grid size is
`int((z_max - z_min) / dz)` with `dz = 1e-5`; `np.linspace` raises
`ValueError` when that count is negative (modelled by the error branch) and
returns an empty grid when it is zero.  The cosmological distance function
is the external collaborator `self.cosmology.comoving_distance`.  The
result models the pair `(self._z_cdf, self._z_time_rate)`. -/
noncomputable def compute_zcdf (rate_z0 rate_pw : Real)
    (comoving_distance : Real → Real) (z_min z_max : Real) :
    Except String ((List Real × List Real) × (List Real × List Real)) :=
  let dz : Real := 1 / 100000
  let num : Int := pyInt ((z_max - z_min) / dz)
  if num < 0 then Except.error "Number of samples must be non-negative"
  else
    let z_shell := np_linspace z_min z_max num.toNat
    let z_center := (adjPairs z_shell).map (fun p => (p.1 + p.2) / 2)
    let rate := z_center.map (BaseGen_rate rate_z0 rate_pw)
    let co_dist := z_shell.map comoving_distance
    let shell_vol := (adjPairs co_dist).map
      (fun p => 4 * Real.pi / 3 * (p.2 ^ 3 - p.1 ^ 3))
    let shell_time_rate :=
      zip3With (fun r v zc => r * v / (1 + zc)) rate shell_vol z_center
    Except.ok (compute_z_cdf z_shell shell_time_rate, (z_shell, shell_time_rate))

theorem compute_zcdf_eq_bounds (r p : Real) (c : Real → Real) (z : Real) :
    compute_zcdf r p c z z = Except.ok (([], [0]), ([], [])) := by
  have hnum : pyInt ((z - z) / (1 / 100000)) = 0 := by
    rw [sub_self, zero_div, pyInt, if_pos le_rfl, Int.floor_zero]
  simp only [compute_zcdf, hnum]
  norm_num [np_linspace, adjPairs, zip3With, compute_z_cdf, np_cumsum,
    cumsumFrom]

/-- C4 counterexample: at `z_min = z_max = 0.1` the grid size is
`int(0) = 0`, `np.linspace` returns an empty grid and `compute_zcdf`
completes without raising, yielding a degenerate CDF (numpy produces `[nan]`
via `0/0`; the exact model yields `[0]`) — refuting the claim that every
`z_min ≥ z_max` raises a fatal configuration error at construction. -/
theorem compute_zcdf_silent_on_equal_bounds :
    compute_zcdf 1 0 (fun z => z) (1/10) (1/10) =
      Except.ok (([], [0]), ([], [])) :=
  compute_zcdf_eq_bounds 1 0 (fun z => z) (1/10)

/-- C4 amended: building the redshift CDF raises only when
`z_min - z_max ≥ 1e-5` (the numpy negative-sample-count ValueError, which
does not surface the z values); when `0 ≤ z_min - z_max < 1e-5` — in
particular whenever `z_min = z_max` — it completes without error on an
empty grid with a degenerate single-entry CDF. -/
theorem compute_zcdf_range_check :
    (∀ (r p : Real) (c : Real → Real) (z_min z_max : Real),
      1 / 100000 ≤ z_min - z_max →
      compute_zcdf r p c z_min z_max =
        Except.error "Number of samples must be non-negative") ∧
    (∀ (r p : Real) (c : Real → Real) (z : Real),
      compute_zcdf r p c z z = Except.ok (([], [0]), ([], []))) := by
  refine ⟨?_, fun r p c z => compute_zcdf_eq_bounds r p c z⟩
  intro r p c z_min z_max h
  have hq : (z_max - z_min) / (1 / 100000) ≤ -1 := by
    have h1 : z_max - z_min ≤ -(1 / 100000) := by linarith
    calc (z_max - z_min) / (1 / 100000)
        ≤ -(1 / 100000) / (1 / 100000) :=
          (div_le_div_iff_of_pos_right (by norm_num)).mpr h1
      _ = -1 := by norm_num
  have hneg : pyInt ((z_max - z_min) / (1 / 100000)) < 0 := by
    rw [pyInt, if_neg (by linarith)]
    have : (⌈(z_max - z_min) / (1 / 100000)⌉ : Int) ≤ -1 :=
      Int.ceil_le.mpr (by exact_mod_cast hq)
    omega
  simp only [compute_zcdf, if_pos hneg]

/-- Witness for the amended C4 at `z_min = 0.2`, `z_max = 0.1`. -/
theorem compute_zcdf_range_check_witness :
    (1 : Real) / 100000 ≤ 1/5 - 1/10 ∧
    compute_zcdf 1 0 (fun z => z) (1/5) (1/10) =
      Except.error "Number of samples must be non-negative" :=
  ⟨by norm_num,
   compute_zcdf_range_check.1 1 0 (fun z => z) (1/5) (1/10) (by norm_num)⟩

/-! ## Real-valued draws of the generator model (used by the coordinate
sampler and the stretch model) -/

/-- Decode a raw word to a uniform real variate in `[0, 1)`. -/
noncomputable def rawToUnitR (v : Nat) : Real :=
  ((v % UINT64 : Nat) : Real) / (UINT64 : Real)

/-- Decode a raw word to a standard-normal variate.  The numpy ziggurat
decoding is external; the claims use only that the draw is a deterministic
function of the stream and that `normal(loc, scale) = loc + scale * xi`. -/
noncomputable def rawToStdNormal (v : Nat) : Real := 2 * rawToUnitR v - 1

/-- Model of `Generator.random()` (one real draw). -/
noncomputable def npRandomOneR (g : NpGen) : Real × NpGen :=
  (rawToUnitR (npRaw g).1, (npRaw g).2)

/-- Model of `Generator.random(size=n)` (real draws). -/
noncomputable def npRandomListR (g : NpGen) (n : Nat) : List Real × NpGen :=
  ((npRawList g n).1.map rawToUnitR, (npRawList g n).2)

/-- Model of `Generator.uniform(low, high)` (one draw). -/
noncomputable def npUniformOneR (g : NpGen) (low high : Real) : Real × NpGen :=
  (low + (high - low) * rawToUnitR (npRaw g).1, (npRaw g).2)

/-- Model of `Generator.uniform(low, high, size=n)`. -/
noncomputable def npUniformListR (g : NpGen) (low high : Real) (n : Nat) :
    List Real × NpGen :=
  ((npRawList g n).1.map (fun v => low + (high - low) * rawToUnitR v),
    (npRawList g n).2)

/-- Model of `Generator.normal(loc, scale)` (one draw). -/
noncomputable def npNormalOneR (g : NpGen) (loc scale : Real) : Real × NpGen :=
  (loc + scale * rawToStdNormal (npRaw g).1, (npRaw g).2)

/-- Model of `Generator.normal(loc, scale, size=n)`. -/
noncomputable def npNormalListR (g : NpGen) (loc scale : Real) (n : Nat) :
    List Real × NpGen :=
  ((npRawList g n).1.map (fun v => loc + scale * rawToStdNormal v),
    (npRawList g n).2)

/-! ## C5 — footprint rejection sampling in BaseGen.gen_coord
(src/snsim/generators.py lines 241-276) -/

/-- Embedding of the `while len(ra) < n` acceptance loop of
`BaseGen.gen_coord` (footprint branch).  Each iteration draws `ra_tmp`
uniformly in `[0, 2*pi)` from the freshly seeded `gen_tmp` and `dec_tmp`
as `arcsin(2*u - 1)` with `u` drawn from `rand_gen`, accepting the point
when the footprint contains it.  The source loop has no trial cap; the
embedding makes the trial count explicit as fuel and returns `none` when
the loop is still running after `fuel` iterations. -/
noncomputable def gen_coord_loop (contains : Real × Real → Bool) (n : Nat)
    (ra dec : List Real) (gen_tmp rand_gen : NpGen) :
    Nat → Option (List Real × List Real)
  | 0 => none
  | fuel + 1 =>
    if ra.length < n then
      let ra_tmp := (npUniformOneR gen_tmp 0 (2 * Real.pi)).1
      let gen_tmp2 := (npUniformOneR gen_tmp 0 (2 * Real.pi)).2
      let dec_uni_tmp := (npRandomOneR rand_gen).1
      let rand_gen2 := (npRandomOneR rand_gen).2
      let dec_tmp := Real.arcsin (2 * dec_uni_tmp - 1)
      if contains (ra_tmp, dec_tmp) then
        gen_coord_loop contains n (ra ++ [ra_tmp]) (dec ++ [dec_tmp])
          gen_tmp2 rand_gen2 fuel
      else
        gen_coord_loop contains n ra dec gen_tmp2 rand_gen2 fuel
    else some (ra, dec)

/-- Embedding of `BaseGen.gen_coord`: without a footprint, `n` uniform
sky points; with a footprint, the rejection loop driven by a sub-generator
seeded with `rand_gen.integers(1000, 1e6)`. -/
noncomputable def gen_coord (footprint : Option (Real × Real → Bool))
    (n : Nat) (g : NpGen) (fuel : Nat) : Option (List Real × List Real) :=
  match footprint with
  | none =>
    some ((npUniformListR g 0 (2 * Real.pi) n).1,
      ((npRandomListR (npUniformListR g 0 (2 * Real.pi) n).2 n).1.map
        (fun u => Real.arcsin (2 * u - 1))))
  | some fp =>
    gen_coord_loop fp n [] []
      (npDefaultRng (npIntegersOne g 1000 1000000).1)
      (npIntegersOne g 1000 1000000).2 fuel

theorem gen_coord_loop_stuck (contains : Real × Real → Bool)
    (hcon : ∀ p, contains p = false) (n : Nat) :
    ∀ (fuel : Nat) (ra dec : List Real) (g1 g2 : NpGen), ra.length < n →
      gen_coord_loop contains n ra dec g1 g2 fuel = none := by
  intro fuel
  induction fuel with
  | zero => intro ra dec g1 g2 _; rfl
  | succ fuel ih =>
    intro ra dec g1 g2 h
    rw [gen_coord_loop, if_pos h]
    simp only [hcon, Bool.false_eq_true, if_false]
    exact ih ra dec _ _ h

/-- C5 (code defect): on a footprint that accepts no candidate point (for
example one of zero measured area), `BaseGen.gen_coord` never reports an
error and never returns: for every trial bound the acceptance loop is
still running, so there is no bounded number of candidate trials within
which it terminates or raises. -/
theorem gen_coord_footprint_no_cap :
    ∀ (fuel : Nat) (g : NpGen),
      gen_coord (some (fun _ => false)) 1 g fuel = none := by
  intro fuel g
  exact gen_coord_loop_stuck (fun _ => false) (fun _ => rfl) 1 fuel [] [] _ _
    (by simp)

/-! ## C9 — redshift-dependent stretch model
(src/snsim/salt_utils.py lines 7-57) -/

/-- The Gaussian density used inside `n21_x1_model`:
`exp(-0.5*((x-mu)/sig)^2) / sqrt(2*pi*sig^2)`. -/
noncomputable def n21_gauss (mu sig x : Real) : Real :=
  Real.exp (-(1/2) * ((x - mu) / sig) ^ 2) / Real.sqrt (2 * Real.pi * sig ^ 2)

/-- The fine grid for the old-population CDF:
`np.linspace(mu2 - 10*sig2, mu1 + 10*sig1, 100000)`.  A top-level
constant: computed once and independent of the redshift input. -/
noncomputable def n21_xgrid : List Real :=
  np_linspace (-1.22 - 10 * 0.56) (0.37 + 10 * 0.61) 100000

/-- Old-population pdf on the grid as written in the source:
`a * gauss(mu1, sig1, x) + (1 - a) * gauss(mu2, sig2, x)` with
`a = 0.51`, `mu1 = 0.37`, `sig1 = 0.61`, `mu2 = -1.22`, `sig2 = 0.56`. -/
noncomputable def n21_f_old : List Real :=
  n21_xgrid.map
    (fun x => 0.51 * n21_gauss 0.37 0.61 x + (1 - 0.51) * n21_gauss (-1.22) 0.56 x)

/-- Old-population pdf written from the words of the claim: two-Gaussian
mixture with weights `0.51` and `0.49`, means `0.37` and `-1.22`, sigmas
`0.61` and `0.56`. -/
noncomputable def n21_f_old_spec : List Real :=
  n21_xgrid.map
    (fun x => 0.51 * n21_gauss 0.37 0.61 x + 0.49 * n21_gauss (-1.22) 0.56 x)

/-- Precomputed old-population CDF:
`F_old = np.cumsum(f_old) * (x[1] - x[0])`; a top-level constant,
independent of the redshift input. -/
noncomputable def n21_F_old : List Real :=
  (np_cumsum n21_f_old).map
    (fun s => s * (n21_xgrid.getD 1 0 - n21_xgrid.getD 0 0))

/-- Model of `np.interp(x, xp, fp)`: piecewise-linear interpolation with
clamping outside the node range. -/
def np_interp {R : Type} [LinearOrderedField R] (x : R) :
    List R → List R → R
  | x0 :: x1 :: xs, f0 :: f1 :: fs =>
    if x < x0 then f0
    else if x ≤ x1 then f0 + (f1 - f0) * (x - x0) / (x1 - x0)
    else np_interp x (x1 :: xs) (f1 :: fs)
  | [_], f0 :: _ => f0
  | _, _ => 0

/-- Embedding of `salt_utils.n21_x1_model` exactly as vectorized in the
source: `X1 = rand_normal * is_young + np.interp(rand_old, F_old, x) *
~is_young`, with `is_young = young_or_old < delta_z`,
`delta_z = 1 / (1/(K*(1+z)^2.8) + 1)`, `K = 0.87`, and `rand_normal`
drawn with `loc = mu1 = 0.37`, `scale = sig1 = 0.61`. -/
noncomputable def n21_x1_model (z : List Real) (g : NpGen) : List Real :=
  let young_or_old := (npRandomListR g z.length).1
  let g1 := (npRandomListR g z.length).2
  let rand_normal := (npNormalListR g1 0.37 0.61 z.length).1
  let g2 := (npNormalListR g1 0.37 0.61 z.length).2
  let rand_old := (npRandomListR g2 z.length).1
  ((z.zip young_or_old).zip (rand_normal.zip rand_old)).map
    (fun q =>
      let delta_z := 1 / (1 / (0.87 * (1 + q.1.1) ^ (2.8 : Real)) + 1)
      q.2.1 * (if q.1.2 < delta_z then (1 : Real) else 0) +
        np_interp q.2.2 n21_F_old n21_xgrid *
          (if q.1.2 < delta_z then (0 : Real) else 1))

/-- The stretch model written from the words of the claim: per object,
classify as young exactly when the uniform draw is below
`delta(z) = 1/(1/(0.87*(1+z)^2.8)+1)`; a young object takes the
`Normal(0.37, 0.61)` draw, an old object takes the inverse-CDF
interpolation of a uniform draw against the precomputed grid. -/
noncomputable def n21_x1_spec (z : List Real) (g : NpGen) : List Real :=
  let young_or_old := (npRandomListR g z.length).1
  let g1 := (npRandomListR g z.length).2
  let rand_normal := (npNormalListR g1 0.37 0.61 z.length).1
  let g2 := (npNormalListR g1 0.37 0.61 z.length).2
  let rand_old := (npRandomListR g2 z.length).1
  ((z.zip young_or_old).zip (rand_normal.zip rand_old)).map
    (fun q =>
      if q.1.2 < 1 / (1 / (0.87 * (1 + q.1.1) ^ (2.8 : Real)) + 1)
      then q.2.1
      else np_interp q.2.2 n21_F_old n21_xgrid)

/-- C9: `n21_x1_model` precomputes the old-population CDF once,
independently of `z` (the constants `n21_xgrid`, `n21_F_old`), classifies
each object as young exactly when its uniform draw is below
`delta(z) = 1/(1/(0.87*(1+z)^2.8)+1)`, draws young stretch from
`Normal(0.37, 0.61)` and old stretch by inverse-CDF interpolation against
the precomputed grid; and the old-population pdf is the two-Gaussian
mixture with weights `0.51`/`0.49`, means `0.37`/`-1.22`, sigmas
`0.61`/`0.56`. -/
theorem n21_x1_model_matches_spec :
    (∀ (z : List Real) (g : NpGen), n21_x1_model z g = n21_x1_spec z g) ∧
    n21_f_old = n21_f_old_spec := by
  constructor
  · intro z g
    simp only [n21_x1_model, n21_x1_spec]
    congr 1
    funext q
    by_cases h : q.1.2 < 1 / (1 / (0.87 * (1 + q.1.1) ^ (2.8 : Real)) + 1)
    · simp only [if_pos h]
      ring
    · simp only [if_neg h]
      ring
  · simp only [n21_f_old, n21_f_old_spec]
    congr 1
    funext x
    norm_num

/-! ## C1 — determinism of the generation call
(src/snsim/generators.py lines 85-124 and 319-384) -/

/-- The CMB dipole configuration dict (`l_cmb`, `b_cmb`, `v_cmb`). -/
structure CMBPar where
  l_cmb : Real
  b_cmb : Real
  v_cmb : Real

/-- One row returned by the host-catalog sampler (external collaborator). -/
structure HostRow where
  redshift : Real
  ra : Real
  dec : Real
  v_radial : Real

/-- Column-oriented table of per-object parameters, modelling the
`astrobj_par` dict / DataFrame: ordered list of (column name, column). -/
abbrev AstrobjTable := List (String × List Real)

/-- The generator configuration together with its deterministic external
collaborators: the cosmology distance function, the astropy galactic-frame
transform used by `compute_z2cmb`, the dust map `compute_ebv`, the
host-catalog sampler `random_choice(n, seed, z_cdf)`, and the two
subclass hooks `_update_astrobj_par` and `gen_snc_par` called with
explicitly derived sub-generators in `BaseGen.__call__`. -/
structure GenConfig where
  comoving_distance : Real → Real
  galacticL : Real → Real → Real
  galacticB : Real → Real → Real
  compute_ebv : Real → Real → Real
  host : Option (Nat → Nat → (List Real × List Real) → List HostRow)
  vpec_dist : Option (Real × Real)
  cmb : CMBPar
  dipole : Option ((Real × Real) × Real × Real)
  footprint : Option (Real × Real → Bool)
  time_range : Real × Real
  z_cdf : List Real × List Real
  has_mw_dust : Bool
  mw_model : String
  mw_rv : Real
  update_astrobj_par : Nat → AstrobjTable → NpGen → AstrobjTable
  gen_snc_par : Nat → AstrobjTable → NpGen → List (List (String × Real))

/-- Embedding of `utils.compute_z2cmb` for one object, with the astropy
frame transform supplied by the configuration as a collaborator
function. -/
noncomputable def compute_z2cmb (cfg : GenConfig) (ra dec : Real) : Real :=
  let l_rad := cfg.galacticL ra dec
  let l_gal := l_rad - 2 * Real.pi * Real.sign l_rad *
    (if Real.pi < |l_rad| then 1 else 0)
  let b_gal := cfg.galacticB ra dec
  let ss := Real.sin b_gal * Real.sin (cfg.cmb.b_cmb * Real.pi / 180)
  let ccc := Real.cos b_gal * Real.cos (cfg.cmb.b_cmb * Real.pi / 180) *
    Real.cos (l_gal - cfg.cmb.l_cmb * Real.pi / 180)
  (1 - cfg.cmb.v_cmb * (ss + ccc) / (C_LIGHT_KMS : Real)) - 1

/-- Modelled from the spec: `nb_fun.radec_to_cart` is imported by the
generators module but `nb_fun.py` is not under src/; the dipole term is
`delta_M = A + B * cos(theta)` with `theta` the angle to the dipole axis
(spec section 4.6 step 7), so the unit vector of `(ra, dec)` is the
standard spherical-to-Cartesian map. -/
noncomputable def radec_to_cart (ra dec : Real) : Real × Real × Real :=
  (Real.cos ra * Real.cos dec, Real.sin ra * Real.cos dec, Real.sin dec)

/-- Embedding of `BaseGen._compute_dipole`:
`delta_M = A + B * (sn_vec . cart_vec)`. -/
noncomputable def compute_dipole (dipole : (Real × Real) × Real × Real)
    (ra dec : List Real) : List Real :=
  let cart := radec_to_cart dipole.1.1 dipole.1.2
  (ra.zip dec).map (fun p =>
    let sn := radec_to_cart p.1 p.2
    dipole.2.1 + dipole.2.2 *
      (sn.1 * cart.1 + sn.2.1 * cart.2.1 + sn.2.2 * cart.2.2))

/-- Embedding of `BaseGen.gen_peak_time`: `n` draws uniform in the survey
time range. -/
noncomputable def gen_peak_time (cfg : GenConfig) (n : Nat) (g : NpGen) :
    List Real × NpGen :=
  npUniformListR g cfg.time_range.1 cfg.time_range.2 n

/-- Embedding of `BaseGen.gen_zcos`: uniform draws inverted through the
cached redshift CDF by `np.interp(u, z_cdf[1], z_cdf[0])`. -/
noncomputable def gen_zcos (cfg : GenConfig) (n : Nat) (g : NpGen) :
    List Real × NpGen :=
  ((npRandomListR g n).1.map (fun u => np_interp u cfg.z_cdf.2 cfg.z_cdf.1),
    (npRandomListR g n).2)

/-- Embedding of `BaseGen.gen_vpec`: Gaussian peculiar velocities. -/
noncomputable def gen_vpec (mean sig : Real) (n : Nat) (g : NpGen) :
    List Real × NpGen :=
  npNormalListR g mean sig n

/-- Assembly of the `astrobj_par` dict of `BaseGen.gen_astrobj_par`:
columns zcos, como_dist, z2cmb, sim_t0, ra, dec, vpec, and dip_dM when a
dipole is configured. -/
noncomputable def mk_astrobj_table (cfg : GenConfig)
    (zcos t0 ra dec vpec : List Real) : AstrobjTable :=
  let base : AstrobjTable :=
    [("zcos", zcos),
     ("como_dist", zcos.map cfg.comoving_distance),
     ("z2cmb", (ra.zip dec).map (fun p => compute_z2cmb cfg p.1 p.2)),
     ("sim_t0", t0),
     ("ra", ra),
     ("dec", dec),
     ("vpec", vpec)]
  match cfg.dipole with
  | some d => base ++ [("dip_dM", compute_dipole d ra dec)]
  | none => base

/-- Embedding of `BaseGen.gen_astrobj_par`.  The draw order follows the
source: peak times from the shared generator; then either `gen_zcos` from
it (no host) or a host seed in `[1000, 1e6)` and the host-catalog sampler;
then two optional sub-seeds, feeding freshly seeded generators for
`gen_coord` and `gen_vpec`.  Returns the table and the advanced shared
generator (`np.random.default_rng` returns a passed Generator
unaltered). -/
noncomputable def gen_astrobj_par (cfg : GenConfig) (n_obj : Nat)
    (g : NpGen) (fuel : Nat) : Except String (AstrobjTable × NpGen) :=
  let t0 := (gen_peak_time cfg n_obj g).1
  let g1 := (gen_peak_time cfg n_obj g).2
  match cfg.host with
  | none =>
    let zcos := (gen_zcos cfg n_obj g1).1
    let g2 := (gen_zcos cfg n_obj g1).2
    let opt_seeds := (npIntegersList g2 1000 1000000 2).1
    let g3 := (npIntegersList g2 1000 1000000 2).2
    match gen_coord cfg.footprint n_obj (npDefaultRng (opt_seeds.getD 0 0))
        fuel with
    | none => Except.error "footprint rejection sampling does not terminate"
    | some radec =>
      let ra := radec.1
      let dec := radec.2
      let vpec :=
        match cfg.vpec_dist with
        | some ms =>
          (gen_vpec ms.1 ms.2 n_obj (npDefaultRng (opt_seeds.getD 1 0))).1
        | none => List.replicate ra.length 0
      Except.ok (mk_astrobj_table cfg zcos t0 ra dec vpec, g3)
  | some hostf =>
    let hseed := (npIntegersOne g1 1000 1000000).1
    let g2 := (npIntegersOne g1 1000 1000000).2
    let rows := hostf n_obj hseed cfg.z_cdf
    let zcos := rows.map HostRow.redshift
    let opt_seeds := (npIntegersList g2 1000 1000000 2).1
    let g3 := (npIntegersList g2 1000 1000000 2).2
    let ra := rows.map HostRow.ra
    let dec := rows.map HostRow.dec
    let vpec :=
      match cfg.vpec_dist with
      | some ms =>
        (gen_vpec ms.1 ms.2 n_obj (npDefaultRng (opt_seeds.getD 1 0))).1
      | none => rows.map HostRow.v_radial
    Except.ok (mk_astrobj_table cfg zcos t0 ra dec vpec, g3)

/-- Column lookup in an `AstrobjTable`. -/
noncomputable def table_col (t : AstrobjTable) (k : String) : List Real :=
  match t.lookup k with
  | some c => c
  | none => []

/-- Embedding of `BaseGen._compute_dust_par`: E(B-V) from the external
dust map, `mw_r_v` included for the ccm89/od94 laws, only `mw_ebv` for
f99, and a ValueError for any other dust model name. -/
noncomputable def compute_dust_par (cfg : GenConfig) (ra dec : List Real) :
    Except String (List (List (String × Real))) :=
  let ebv := (ra.zip dec).map (fun p => cfg.compute_ebv p.1 p.2)
  if pyLower cfg.mw_model ∈ (["ccm89", "od94"] : List String) then
    Except.ok (ebv.map (fun e => [("mw_r_v", cfg.mw_rv), ("mw_ebv", e)]))
  else if pyLower cfg.mw_model ∈ (["f99"] : List String) then
    Except.ok (ebv.map (fun e => [("mw_ebv", e)]))
  else Except.error (cfg.mw_model ++ " is not implemented")

/-- One generated per-object record: the astrobj_par row and the merged
sncosmo parameter dict (model parameters merged with dust parameters),
the inputs from which `__call__` constructs the AstrObj instance. -/
structure ObjRecord where
  base : List (String × Real)
  sncosmo : List (String × Real)

/-- Embedding of `BaseGen.__call__` with `astrobj_par=None`: seed the
shared generator from `rand_seed`, generate the base table via
`gen_astrobj_par` (which advances the shared generator), derive the three
`update_seeds` in `[1000, 1e6)`, run the subclass hooks on freshly seeded
sub-generators, compute dust parameters when the model carries a `mw_`
effect, and assemble one record per object. -/
noncomputable def baseGenCall (cfg : GenConfig) (n_obj rand_seed fuel : Nat) :
    Except String (List ObjRecord) :=
  let g := npDefaultRng rand_seed
  match gen_astrobj_par cfg n_obj g fuel with
  | Except.error e => Except.error e
  | Except.ok tg =>
    let tbl := tg.1
    let g1 := tg.2
    let update_seeds := (npIntegersList g1 1000 1000000 3).1
    let tbl2 :=
      cfg.update_astrobj_par n_obj tbl (npDefaultRng (update_seeds.getD 0 0))
    let snc := cfg.gen_snc_par n_obj tbl2 (npDefaultRng (update_seeds.getD 1 0))
    let ra := table_col tbl2 "ra"
    let dec := table_col tbl2 "dec"
    match (if cfg.has_mw_dust then compute_dust_par cfg ra dec
           else Except.ok (List.replicate ra.length [])) with
    | Except.error e => Except.error e
    | Except.ok dust =>
      Except.ok ((snc.zip dust).enum.map (fun iq =>
        ⟨tbl2.map (fun kv => (kv.1, kv.2.getD iq.1 0)), iq.2.1 ++ iq.2.2⟩))

/-- C1: generation is a deterministic function of (configuration, root
seed, count).  Two invocations of the generation call — two generator
instances — with identical configuration (including its deterministic
collaborator functions), object count and rand seed produce identical
per-object records, column for column. -/
theorem baseGenCall_deterministic (cfg1 cfg2 : GenConfig)
    (n_obj rand_seed fuel : Nat) (h : cfg1 = cfg2) :
    baseGenCall cfg1 n_obj rand_seed fuel =
      baseGenCall cfg2 n_obj rand_seed fuel := by
  rw [h]

/-- A concrete configuration with constant collaborators, exercising the
no-host, no-footprint, Gaussian-vpec path. -/
noncomputable def exampleConfig : GenConfig :=
  ⟨fun z => 4000 * z, fun ra _ => ra, fun _ dec => dec, fun _ _ => 0,
   none, some (0, 300), ⟨264021/1000, 48253/1000, 36982/100⟩, none, none,
   (0, 100), ([0, 1/10], [0, 1]), false, "ccm89", 31/10,
   fun _ t _ => t, fun n _ _ => List.replicate n []⟩

/-- Witness for C1: two invocations on the same concrete configuration,
count and seed agree. -/
theorem baseGenCall_deterministic_witness :
    exampleConfig = exampleConfig ∧
    baseGenCall exampleConfig 3 42 5 = baseGenCall exampleConfig 3 42 5 :=
  ⟨rfl, baseGenCall_deterministic exampleConfig exampleConfig 3 42 5 rfl⟩
